import Mathlib

/-!
Shallow embedding of the ProjectNocturna pipeline (`etl_main.py` and
`scripts/ingest_viirs/ingest.py`).

Raster pixel values and all derived quantities are modelled as rationals
(the real-valued, exact model of the floating-point promotion the code
performs with `astype(float)`).  A 2-D array is a list of rows.  The
side-effecting exporter is modelled as a total function that returns the
list of database operations it performed together with an outcome record;
exceptions raised by the database collaborator are modelled by an explicit
fault assignment (`Faults`), and the `try/except` wrapper of the code is
the fact that the modelled function is total and records a logged error
instead of propagating one.
-/

namespace Nocturna

/-- A 2-D numeric array (list of rows), the model of a NumPy array whose
entries have been promoted to a real-valued representation. -/
abbrev Mat := List (List ℚ)

/-- Entry lookup `M[y][x]` as an `Option`. -/
def getEntry (M : Mat) (y x : Nat) : Option ℚ :=
  (M[y]?).bind fun row => row[x]?

/-- The 6 affine geo-transform coefficients, in GDAL `GetGeoTransform`
order `gt[0] .. gt[5]`. -/
structure GeoTransform where
  gt0 : ℚ
  gt1 : ℚ
  gt2 : ℚ
  gt3 : ℚ
  gt4 : ℚ
  gt5 : ℚ
deriving DecidableEq

/-- Two arrays have identical shape: same row count and same length for
each corresponding row. -/
def sameShape (A B : Mat) : Prop :=
  A.map List.length = B.map List.length

instance (A B : Mat) : Decidable (sameShape A B) := by
  unfold sameShape; infer_instance

/-- Pixel-wise difference `data_new.astype(float) - data_old.astype(float)`
(line 94 of `etl_main.py`): newer minus older, element-wise. -/
def diffField (dataOld dataNew : Mat) : Mat :=
  List.zipWith (fun ro rn => List.zipWith (fun a b => b - a) ro rn) dataOld dataNew

/-- The exact real value of an unsigned 16-bit raster sample after
`astype(float)`: the sample's numeric value, unchanged. -/
def u16_astype_float (v : Fin 65536) : ℚ := (v.val : ℚ)

/-- The difference the code computes for a pair of unsigned 16-bit samples
(older `a`, newer `b`): both are promoted to float first, then subtracted. -/
def diff_u16 (a b : Fin 65536) : ℚ := u16_astype_float b - u16_astype_float a

/-- What raw unsigned 16-bit subtraction `b - a` would produce instead
(modular wraparound) — the artifact the promotion avoids. -/
def wrap_sub_u16 (a b : Fin 65536) : Nat := (b.val + 65536 - a.val) % 65536

/-- Hit positions of one row, scanned left to right: `(y, x)` for every
column `x` (counting from `x0`) whose value strictly exceeds `t`. -/
def rowHitsFrom (t : ℚ) (y : Nat) : List ℚ → Nat → List (Nat × Nat)
  | [], _ => []
  | v :: rest, x => (if t < v then [(y, x)] else []) ++ rowHitsFrom t y rest (x + 1)

/-- Row-major scan of a 2-D array for entries strictly greater than `t`,
starting at row index `y0`. -/
def npWhereFrom (t : ℚ) : Mat → Nat → List (Nat × Nat)
  | [], _ => []
  | row :: rest, y => rowHitsFrom t y row 0 ++ npWhereFrom t rest (y + 1)

/-- Model of `np.where(M > t)` (line 97 of `etl_main.py`): the positions
`(row, col)` of entries strictly greater than `t`, in NumPy's row-major
order.  NumPy returns the positions as two parallel index arrays; we model
the same data zipped into one list of pairs. -/
def npWhereGt (M : Mat) (t : ℚ) : List (Nat × Nat) := npWhereFrom t M 0

/-- A named sub-layer of a multi-subdataset raster product: its GDAL
subdataset name, its decoded 2-D array, and its affine transform. -/
structure SubDataset where
  sdName : String
  sdData : Mat
  sdGT : GeoTransform
deriving DecidableEq

/-- A downloaded raster file, exposing its subdatasets. -/
structure RasterFile where
  subDatasets : List SubDataset
deriving DecidableEq

/-- Substring containment on character lists: `needle` occurs contiguously
in the haystack. -/
def charsContain (needle : List Char) : List Char → Bool
  | [] => needle.isEmpty
  | c :: rest => needle.isPrefixOf (c :: rest) || charsContain needle rest

/-- The Python `needle in hay` test on strings. -/
def strContainsSub (hay needle : String) : Bool :=
  charsContain needle.toList hay.toList

/-- The fixed target sub-layer name substring (line 80 of `etl_main.py`). -/
def layer_name : String := "Gap_Filled_DNB_BRDF-Corrected_NTL"

/-- The sub-layer lookup `[x[0] for x in ds.GetSubDatasets() if layer_name
in x[0]][0]` (lines 85/90): first subdataset whose name contains
`layer_name`; an empty filter result raises, which the surrounding
`try/except` turns into the all-`None` sentinel, so we model it as `none`. -/
def findSubLayer (f : RasterFile) : Option SubDataset :=
  (f.subDatasets.filter fun s => strContainsSub s.sdName layer_name).head?

/-- Model of `analyze_change` (lines 76-106 of `etl_main.py`).  `none` is
the all-`None` sentinel `(None, None, None)`.  With at least two files it
takes `files[0]` as older and `files[1]` as newer, looks up the target
sub-layer in each, differences the promoted arrays, thresholds at 5, and
returns the hotspot positions, the newer sub-layer's geo-transform and the
full difference field.  Any lookup/decoding failure yields the sentinel. -/
def analyze_change (files : List RasterFile) :
    Option (List (Nat × Nat) × GeoTransform × Mat) :=
  if files.length < 2 then none
  else
    match files[0]?, files[1]? with
    | some fOld, some fNew =>
      match findSubLayer fOld, findSubLayer fNew with
      | some sOld, some sNew =>
        let diff := diffField sOld.sdData sNew.sdData
        some (npWhereGt diff 5, sNew.sdGT, diff)
      | _, _ => none
    | _, _ => none

/-- Pixel (row `y`, column `x`) to geographic coordinates (lines 135-136):
`lon = gt[0] + x*gt[1] + y*gt[2]`, `lat = gt[3] + x*gt[4] + y*gt[5]`. -/
def pixelToLonLat (gt : GeoTransform) (y x : Nat) : ℚ × ℚ :=
  (gt.gt0 + (x : ℚ) * gt.gt1 + (y : ℚ) * gt.gt2,
   gt.gt3 + (x : ℚ) * gt.gt4 + (y : ℚ) * gt.gt5)

/-- The polygon ring of line 139, as its list of vertices:
`POLYGON((lon lat, lon+0.01 lat, lon+0.01 lat-0.01, lon lat-0.01, lon lat))`. -/
def polygonWKT (lon lat : ℚ) : List (ℚ × ℚ) :=
  [(lon, lat), (lon + 1/100, lat), (lon + 1/100, lat - 1/100),
   (lon, lat - 1/100), (lon, lat)]

/-- One row of the `analysis_grid` insert (lines 141-144): columns
`(cell_id, mean_radiance_2024, trend_slope, risk_level, geom)`, the
geometry being `ST_GeomFromText(poly, 4326)`. -/
structure Row where
  cell_id : String
  mean_radiance_2024 : ℚ
  trend_slope : ℚ
  risk_level : String
  geom : List (ℚ × ℚ)
  srid : Nat
deriving DecidableEq

/-- The row built for hotspot pixel `(y, x)` with running counter `count`:
identifier `cityName_count`, the pixel's delta in both numeric columns,
the constant label `Critical`, and the 0.01-degree cell polygon anchored
at the transformed coordinate. -/
def mkRow (cityName : String) (count : Nat) (gt : GeoTransform) (diff : Mat)
    (y x : Nat) : Row :=
  { cell_id := cityName ++ "_" ++ toString count
    mean_radiance_2024 := (diff.getD y []).getD x 0
    trend_slope := (diff.getD y []).getD x 0
    risk_level := "Critical"
    geom := polygonWKT (pixelToLonLat gt y x).1 (pixelToLonLat gt y x).2
    srid := 4326 }

/-- One observable database operation of the exporter. -/
inductive DbOp where
  | connect
  | execute (r : Row)
  | commit
  | close
deriving DecidableEq

/-- Fault assignment for the database collaborator: whether `connect`
raises, whether the `i`-th `execute` raises, whether `commit` raises. -/
structure Faults where
  connectFails : Bool
  execFails : Nat → Bool
  commitFails : Bool

/-- The fault-free assignment. -/
def noFaults : Faults := { connectFails := false, execFails := fun _ => false, commitFails := false }

/-- The insert loop of lines 125-146: iterates the hotspot positions with a
running counter, breaks at the cap of 500, executes one insert per retained
pixel.  Returns the operations performed and either the list of rows the
open transaction holds (`ok`) or the first raised exception (`error`). -/
def insertLoop (fl : Faults) (cityName : String) (gt : GeoTransform) (diff : Mat) :
    List (Nat × Nat) → Nat → List DbOp × Except String (List Row)
  | [], _ => ([], Except.ok [])
  | (y, x) :: rest, count =>
    if 500 ≤ count then ([], Except.ok [])
    else
      let row := mkRow cityName count gt diff y x
      if fl.execFails count then ([DbOp.execute row], Except.error "insert failed")
      else
        let r := insertLoop fl cityName gt diff rest (count + 1)
        (DbOp.execute row :: r.1,
         match r.2 with
         | Except.ok rows => Except.ok (row :: rows)
         | Except.error e => Except.error e)

/-- Python truthiness of the `DATABASE_URL` configuration value: `None`
(unset) and the empty string are both falsy (line 114, `if not DB_URL`). -/
def isConfigured : Option String → Bool
  | none => false
  | some s => !s.isEmpty

/-- Observable outcome of one `export_to_cloud` call: the rows durably
committed, whether the missing-configuration warning was logged, and
whether a caught exception was logged. -/
structure ExportResult where
  committed : List Row
  warnedNoDb : Bool
  errorLogged : Bool
deriving DecidableEq

/-- Model of `export_to_cloud` (lines 111-153).  Returns the database
operations performed and the outcome.  The function is total: every fault
is caught (the code's `try/except`), logged, and never re-raised.  An
exception anywhere before `commit` leaves the transaction uncommitted, so
`committed` is empty on every fault path. -/
def export_to_cloud (dbUrl : Option String) (fl : Faults) (cityName : String)
    (indices : List (Nat × Nat)) (gt : GeoTransform) (diff : Mat) :
    List DbOp × ExportResult :=
  if isConfigured dbUrl = false then
    ([], { committed := [], warnedNoDb := true, errorLogged := false })
  else if fl.connectFails then
    ([DbOp.connect], { committed := [], warnedNoDb := false, errorLogged := true })
  else
    let r := insertLoop fl cityName gt diff indices 0
    match r.2 with
    | Except.error _ =>
      (DbOp.connect :: r.1, { committed := [], warnedNoDb := false, errorLogged := true })
    | Except.ok rows =>
      if fl.commitFails then
        (DbOp.connect :: r.1 ++ [DbOp.commit],
         { committed := [], warnedNoDb := false, errorLogged := true })
      else
        (DbOp.connect :: r.1 ++ [DbOp.commit, DbOp.close],
         { committed := rows, warnedNoDb := false, errorLogged := false })

/-- The rows a fault-free export writes: the first 500 hotspot positions in
the analyzer's order, each turned into its row with sequential counters. -/
def rowsOf (cityName : String) (gt : GeoTransform) (diff : Mat)
    (indices : List (Nat × Nat)) : List Row :=
  (indices.take 500).enum.map fun p => mkRow cityName p.1 gt diff p.2.1 p.2.2

/-- One region's pass through the main loop (lines 161-177), given the
fetcher's verified files: analysis and export run only when at least two
files are available and the analyzer did not return the sentinel. -/
def processCity (dbUrl : Option String) (fl : Faults) (cityName : String)
    (files : List RasterFile) : List DbOp × ExportResult :=
  if 2 ≤ files.length then
    match analyze_change files with
    | some (indices, gt, diff) => export_to_cloud dbUrl fl cityName indices gt diff
    | none => ([], { committed := [], warnedNoDb := false, errorLogged := false })
  else ([], { committed := [], warnedNoDb := false, errorLogged := false })

/-- The scaffold generator's provenance record
(`scripts/ingest_viirs/ingest.py`, lines 23-29), field order as declared. -/
structure Provenance where
  product : String
  year : Int
  created_at_utc : String
  source : String
  notes : String
deriving DecidableEq

/-- A JSON scalar as the sidecar uses them. -/
inductive JVal where
  | jstr (s : String)
  | jint (n : Int)
deriving DecidableEq

/-- The constant product string of `ingest.py` line 79. -/
def scaffold_product : String := "VIIRS Nighttime Lights (raster)"

/-- Default of the `--source` argument (`ingest.py` line 49). -/
def default_source : String := "TBD (configure actual NASA/NOAA VIIRS product source)"

/-- Default of the `--notes` argument (`ingest.py` line 55). -/
def default_notes : String :=
  "Scaffold output (no real download performed). Replace with real acquisition + processing."

/-- The provenance record `main()` constructs (lines 78-84): constant
product, the command-line year, the UTC timestamp taken at run time, and
the supplied or default source and notes strings. -/
def scaffold_provenance (year : Int) (nowUtc : String)
    (srcArg notesArg : Option String) : Provenance :=
  { product := scaffold_product
    year := year
    created_at_utc := nowUtc
    source := srcArg.getD default_source
    notes := notesArg.getD default_notes }

/-- The JSON object `json.dumps(asdict(prov))` writes to the sidecar:
key/value pairs in dataclass field order. -/
def provenance_asdict (p : Provenance) : List (String × JVal) :=
  [("product", JVal.jstr p.product),
   ("year", JVal.jint p.year),
   ("created_at_utc", JVal.jstr p.created_at_utc),
   ("source", JVal.jstr p.source),
   ("notes", JVal.jstr p.notes)]

/-- The keys of the sidecar JSON object, in order. -/
def sidecar_keys (p : Provenance) : List String :=
  (provenance_asdict p).map Prod.fst

/-- A concrete geo-transform used by the end-to-end scenario. -/
def gtX : GeoTransform :=
  { gt0 := 10, gt1 := 1/100, gt2 := 0, gt3 := 50, gt4 := 0, gt5 := -(1/100) }

/-- The scenario's older raster file: one matching sub-layer holding
`[[0,0],[0,20]]`. -/
def fOldX : RasterFile :=
  { subDatasets := [{ sdName := "HDF5:V2022.h5://Data_Fields/Gap_Filled_DNB_BRDF-Corrected_NTL",
                      sdData := [[0,0],[0,20]], sdGT := gtX }] }

/-- The scenario's newer raster file: one matching sub-layer holding
`[[0,0],[0,26]]`. -/
def fNewX : RasterFile :=
  { subDatasets := [{ sdName := "HDF5:V2023.h5://Data_Fields/Gap_Filled_DNB_BRDF-Corrected_NTL",
                      sdData := [[0,0],[0,26]], sdGT := gtX }] }

/-! Helper lemmas about the row-major threshold scan. -/

theorem mem_rowHitsFrom {t : ℚ} {y : ℕ} (row : List ℚ) (x0 p q : ℕ) :
    (p, q) ∈ rowHitsFrom t y row x0 ↔
      p = y ∧ ∃ j v, q = x0 + j ∧ row[j]? = some v ∧ t < v := by
  induction row generalizing x0 with
  | nil => simp [rowHitsFrom]
  | cons w rest ih =>
    by_cases htw : t < w
    · simp only [rowHitsFrom, if_pos htw, List.mem_append, List.mem_singleton,
        Prod.mk.injEq, ih]
      constructor
      · rintro (⟨rfl, rfl⟩ | ⟨rfl, j, v, rfl, hj, hv⟩)
        · exact ⟨rfl, 0, w, by omega, by simp, htw⟩
        · exact ⟨rfl, j + 1, v, by omega, by simpa using hj, hv⟩
      · rintro ⟨rfl, j, v, rfl, hj, hv⟩
        cases j with
        | zero =>
          simp only [List.getElem?_cons_zero, Option.some.injEq] at hj
          subst hj
          exact Or.inl ⟨rfl, by omega⟩
        | succ j =>
          exact Or.inr ⟨rfl, j, v, by omega, by simpa using hj, hv⟩
    · simp only [rowHitsFrom, if_neg htw, List.nil_append, ih]
      constructor
      · rintro ⟨rfl, j, v, rfl, hj, hv⟩
        exact ⟨rfl, j + 1, v, by omega, by simpa using hj, hv⟩
      · rintro ⟨rfl, j, v, rfl, hj, hv⟩
        cases j with
        | zero =>
          simp only [List.getElem?_cons_zero, Option.some.injEq] at hj
          subst hj
          exact absurd hv htw
        | succ j =>
          exact ⟨rfl, j, v, by omega, by simpa using hj, hv⟩

theorem mem_npWhereFrom {t : ℚ} (M : Mat) (y0 p q : ℕ) :
    (p, q) ∈ npWhereFrom t M y0 ↔
      ∃ i row v, p = y0 + i ∧ M[i]? = some row ∧ row[q]? = some v ∧ t < v := by
  induction M generalizing y0 with
  | nil => simp [npWhereFrom]
  | cons r rest ih =>
    simp only [npWhereFrom, List.mem_append, mem_rowHitsFrom, ih]
    constructor
    · rintro (⟨rfl, j, v, rfl, hj, hv⟩ | ⟨i, row, v, rfl, hi, hq, hv⟩)
      · exact ⟨0, r, v, by omega, by simp, by simpa using hj, hv⟩
      · exact ⟨i + 1, row, v, by omega, by simpa using hi, hq, hv⟩
    · rintro ⟨i, row, v, rfl, hi, hq, hv⟩
      cases i with
      | zero =>
        simp only [List.getElem?_cons_zero, Option.some.injEq] at hi
        subst hi
        exact Or.inl ⟨by omega, q, v, by omega, hq, hv⟩
      | succ i =>
        exact Or.inr ⟨i, row, v, by omega, by simpa using hi, hq, hv⟩

theorem mem_npWhereGt {t : ℚ} (M : Mat) (p q : ℕ) :
    (p, q) ∈ npWhereGt M t ↔ ∃ v, getEntry M p q = some v ∧ t < v := by
  unfold npWhereGt
  rw [mem_npWhereFrom]
  constructor
  · rintro ⟨i, row, v, rfl, hi, hq, hv⟩
    refine ⟨v, ?_, hv⟩
    simp only [getEntry, Nat.zero_add, hi, Option.some_bind]
    exact hq
  · rintro ⟨v, hv, htv⟩
    cases hM : M[p]? with
    | none => rw [getEntry, hM] at hv; simp at hv
    | some row =>
      rw [getEntry, hM] at hv
      exact ⟨p, row, v, by omega, hM, by simpa using hv, htv⟩

theorem getElem?_zipWith_iff {α β γ : Type} (f : α → β → γ) (as : List α)
    (bs : List β) (i : ℕ) (v : γ) :
    (List.zipWith f as bs)[i]? = some v ↔
      ∃ a b, as[i]? = some a ∧ bs[i]? = some b ∧ v = f a b := by
  rw [List.getElem?_zipWith]
  cases ha : as[i]? <;> cases hb : bs[i]? <;> simp [eq_comm]

theorem getEntry_diffField (A B : Mat) (y x : ℕ) (v : ℚ) :
    getEntry (diffField A B) y x = some v ↔
      ∃ a b, getEntry A y x = some a ∧ getEntry B y x = some b ∧ v = b - a := by
  unfold getEntry diffField
  constructor
  · intro hv
    cases hrow : (List.zipWith (fun ro rn => List.zipWith (fun a b => b - a) ro rn) A B)[y]? with
    | none => rw [hrow] at hv; simp at hv
    | some row =>
      rw [hrow] at hv
      simp only [Option.some_bind] at hv
      obtain ⟨ra, rb, hra, hrb, rfl⟩ := (getElem?_zipWith_iff _ A B y row).1 hrow
      obtain ⟨a, b, ha, hb, rfl⟩ := (getElem?_zipWith_iff _ ra rb x v).1 hv
      exact ⟨a, b, by simp [hra, ha], by simp [hrb, hb], rfl⟩
  · rintro ⟨a, b, ha, hb, rfl⟩
    cases hA : A[y]? with
    | none => rw [hA] at ha; simp at ha
    | some ra =>
      cases hB : B[y]? with
      | none => rw [hB] at hb; simp at hb
      | some rb =>
        rw [hA] at ha; rw [hB] at hb
        simp only [Option.some_bind] at ha hb
        have hrow : (List.zipWith (fun ro rn => List.zipWith (fun a b => b - a) ro rn) A B)[y]?
            = some (List.zipWith (fun a b => b - a) ra rb) :=
          (getElem?_zipWith_iff _ A B y _).2 ⟨ra, rb, hA, hB, rfl⟩
        rw [hrow]
        simp only [Option.some_bind]
        exact (getElem?_zipWith_iff _ ra rb x _).2 ⟨a, b, ha, hb, rfl⟩

/-- C1: for co-registered arrays A (older) and B (newer) of identical shape,
the analyzer's hotspot index set is exactly the set of positions whose
real-valued difference `B - A` strictly exceeds 5; a position whose
difference equals exactly 5 is never included. -/
theorem C1_hotspot_set (A B : Mat) (_hShape : sameShape A B) :
    (∀ y x, ((y, x) ∈ npWhereGt (diffField A B) 5 ↔
        ∃ a b, getEntry A y x = some a ∧ getEntry B y x = some b ∧ 5 < b - a)) ∧
    (∀ y x a b, getEntry A y x = some a → getEntry B y x = some b →
        b - a = 5 → (y, x) ∉ npWhereGt (diffField A B) 5) := by
  constructor
  · intro y x
    rw [mem_npWhereGt]
    constructor
    · rintro ⟨v, hv, htv⟩
      obtain ⟨a, b, ha, hb, rfl⟩ := (getEntry_diffField A B y x v).1 hv
      exact ⟨a, b, ha, hb, htv⟩
    · rintro ⟨a, b, ha, hb, hlt⟩
      exact ⟨b - a, (getEntry_diffField A B y x _).2 ⟨a, b, ha, hb, rfl⟩, hlt⟩
  · rintro y x a b ha hb heq hmem
    rw [mem_npWhereGt] at hmem
    obtain ⟨v, hv, htv⟩ := hmem
    obtain ⟨a2, b2, ha2, hb2, rfl⟩ := (getEntry_diffField A B y x v).1 hv
    rw [ha] at ha2
    rw [hb] at hb2
    injection ha2 with ha2
    injection hb2 with hb2
    subst ha2
    subst hb2
    rw [heq] at htv
    exact lt_irrefl _ htv

/-- Witness for C1 at a concrete pair of arrays whose difference at (1,0)
is exactly the boundary value 5. -/
theorem C1_hotspot_set_witness :
    sameShape [[(0:ℚ)],[0]] [[(0:ℚ)],[5]] ∧
      (1, 0) ∉ npWhereGt (diffField [[(0:ℚ)],[0]] [[(0:ℚ)],[5]]) 5 :=
  ⟨by decide,
   (C1_hotspot_set [[(0:ℚ)],[0]] [[(0:ℚ)],[5]] (by decide)).2 1 0 0 5 rfl rfl
     (by norm_num)⟩

/-! Helper lemmas about the exporter's insert loop. -/

theorem insertLoop_ok_eq (fl : Faults) (city : String) (gt : GeoTransform) (diff : Mat) :
    ∀ (idx : List (ℕ × ℕ)) (c : ℕ) (rows : List Row),
      (insertLoop fl city gt diff idx c).2 = Except.ok rows →
      rows = ((idx.take (500 - c)).enumFrom c).map
        (fun p => mkRow city p.1 gt diff p.2.1 p.2.2) := by
  intro idx
  induction idx with
  | nil =>
    intro c rows h
    simp only [insertLoop, Except.ok.injEq] at h
    simp [← h]
  | cons yx rest ih =>
    obtain ⟨y, x⟩ := yx
    intro c rows h
    by_cases hc : 500 ≤ c
    · simp only [insertLoop, if_pos hc, Except.ok.injEq] at h
      have h500 : 500 - c = 0 := by omega
      simp [h500, ← h]
    · by_cases hf : fl.execFails c
      · simp [insertLoop, hc, hf] at h
      · simp only [insertLoop, if_neg hc, if_neg hf] at h
        cases hr : (insertLoop fl city gt diff rest (c + 1)).2 with
        | error e => rw [hr] at h; simp at h
        | ok rows2 =>
          rw [hr] at h
          simp only [Except.ok.injEq] at h
          subst h
          have h500 : 500 - c = (500 - (c + 1)) + 1 := by omega
          rw [h500]
          simp only [List.take_succ_cons, List.enumFrom, List.map_cons, List.cons.injEq]
          exact ⟨by trivial, ih (c + 1) rows2 hr⟩

theorem insertLoop_noFaults_ok (city : String) (gt : GeoTransform) (diff : Mat) :
    ∀ (idx : List (ℕ × ℕ)) (c : ℕ), ∃ rows,
      (insertLoop noFaults city gt diff idx c).2 = Except.ok rows := by
  intro idx
  induction idx with
  | nil => intro c; exact ⟨[], rfl⟩
  | cons yx rest ih =>
    obtain ⟨y, x⟩ := yx
    intro c
    by_cases hc : 500 ≤ c
    · exact ⟨[], by simp [insertLoop, hc]⟩
    · obtain ⟨rows, hrows⟩ := ih (c + 1)
      refine ⟨mkRow city c gt diff y x :: rows, ?_⟩
      simp only [insertLoop, if_neg hc, show noFaults.execFails c = false from rfl,
        Bool.false_eq_true, if_false, hrows]

theorem insertLoop_shape (fl : Faults) (city : String) (gt : GeoTransform) (diff : Mat) :
    ∀ (idx : List (ℕ × ℕ)) (c : ℕ), ∃ rows : List Row,
      (insertLoop fl city gt diff idx c).1 = rows.map DbOp.execute ∧
        ((insertLoop fl city gt diff idx c).2 = Except.ok rows ∨
          ∃ e, (insertLoop fl city gt diff idx c).2 = Except.error e) := by
  intro idx
  induction idx with
  | nil => intro c; exact ⟨[], rfl, Or.inl rfl⟩
  | cons yx rest ih =>
    obtain ⟨y, x⟩ := yx
    intro c
    by_cases hc : 500 ≤ c
    · exact ⟨[], by simp [insertLoop, hc], Or.inl (by simp [insertLoop, hc])⟩
    · by_cases hf : fl.execFails c
      · exact ⟨[mkRow city c gt diff y x], by simp [insertLoop, hc, hf],
          Or.inr ⟨"insert failed", by simp [insertLoop, hc, hf]⟩⟩
      · obtain ⟨rows, htr, hres⟩ := ih (c + 1)
        refine ⟨mkRow city c gt diff y x :: rows, by simp [insertLoop, hc, hf, htr], ?_⟩
        rcases hres with hok | ⟨e, herr⟩
        · exact Or.inl (by simp [insertLoop, hc, hf, hok])
        · exact Or.inr ⟨e, by simp [insertLoop, hc, hf, herr]⟩

theorem isConfigured_some_ne {u : String} (hu : u ≠ "") :
    isConfigured (some u) = true := by
  have : u.isEmpty = false := by
    rcases h : u.isEmpty with _ | _
    · rfl
    · exact absurd ((String.isEmpty_iff u).1 h) hu
  simp [isConfigured, this]

theorem export_committed_noFaults (u city : String) (gt : GeoTransform) (diff : Mat)
    (idx : List (ℕ × ℕ)) (hu : u ≠ "") :
    (export_to_cloud (some u) noFaults city idx gt diff).2.committed
      = rowsOf city gt diff idx := by
  have hconf := isConfigured_some_ne hu
  obtain ⟨rows, hok⟩ := insertLoop_noFaults_ok city gt diff idx 0
  have heq := insertLoop_ok_eq noFaults city gt diff idx 0 rows hok
  have hcommitted : (export_to_cloud (some u) noFaults city idx gt diff).2.committed = rows := by
    simp only [export_to_cloud, hconf, Bool.true_eq_false, if_false,
      show noFaults.connectFails = false from rfl, Bool.false_eq_true, hok,
      show noFaults.commitFails = false from rfl]
  rw [hcommitted, heq]
  simp [rowsOf, List.enum]

theorem export_committed_cases (dbUrl : Option String) (fl : Faults) (city : String)
    (idx : List (ℕ × ℕ)) (gt : GeoTransform) (diff : Mat) :
    (export_to_cloud dbUrl fl city idx gt diff).2.committed = [] ∨
      (export_to_cloud dbUrl fl city idx gt diff).2.committed
        = rowsOf city gt diff idx := by
  by_cases hconf : isConfigured dbUrl = false
  · simp [export_to_cloud, hconf]
  · by_cases hcf : fl.connectFails
    · simp [export_to_cloud, hconf, hcf]
    · cases hr : (insertLoop fl city gt diff idx 0).2 with
      | error e => simp [export_to_cloud, hconf, hcf, hr]
      | ok rows =>
        have heq := insertLoop_ok_eq fl city gt diff idx 0 rows hr
        by_cases hcm : fl.commitFails
        · simp [export_to_cloud, hconf, hcf, hr, hcm]
        · right
          simp only [export_to_cloud, hconf, Bool.false_eq_true, if_false, hcf, hcm, hr]
          simpa [rowsOf, List.enum] using heq

/-- C3: the exporter writes at most 500 rows per region, and a fault-free
export writes exactly the first `min(n, 500)` hotspots in the order the
analyzer produced them (row-major scan order), each converted to its row
with a sequential counter; the cap truncates instead of selecting by
magnitude. -/
theorem C3_export_cap (u cityName : String) (gt : GeoTransform) (diff : Mat)
    (hu : u ≠ "") :
    (export_to_cloud (some u) noFaults cityName (npWhereGt diff 5) gt diff).2.committed
        = ((npWhereGt diff 5).take 500).enum.map
            (fun p => mkRow cityName p.1 gt diff p.2.1 p.2.2) ∧
    ((export_to_cloud (some u) noFaults cityName (npWhereGt diff 5) gt diff).2.committed).length
        = min (npWhereGt diff 5).length 500 ∧
    (∀ (dbUrl : Option String) (fl : Faults) (indices : List (ℕ × ℕ)),
      ((export_to_cloud dbUrl fl cityName indices gt diff).2.committed).length ≤ 500) := by
  have hmain := export_committed_noFaults u cityName gt diff (npWhereGt diff 5) hu
  have hlen : ∀ (indices : List (ℕ × ℕ)),
      (rowsOf cityName gt diff indices).length = min indices.length 500 := by
    intro indices
    simp [rowsOf, List.length_take, Nat.min_comm]
  refine ⟨by rw [hmain]; rfl, by rw [hmain, hlen], ?_⟩
  intro dbUrl fl indices
  rcases export_committed_cases dbUrl fl cityName indices gt diff with hnil | hrows
  · simp [hnil]
  · rw [hrows, hlen]
    omega

/-- Witness for C3 at a concrete configured URL and a concrete difference
field with one hotspot. -/
theorem C3_export_cap_witness :
    ("db" ≠ "") ∧
      ((export_to_cloud (some "db") noFaults "X" (npWhereGt [[(0:ℚ),0],[0,6]] 5)
          gtX [[(0:ℚ),0],[0,6]]).2.committed).length
        = min (npWhereGt [[(0:ℚ),0],[0,6]] 5).length 500 :=
  ⟨by decide,
   (C3_export_cap "db" "X" gtX [[(0:ℚ),0],[0,6]] (by decide)).2.1⟩

/-- C6: the exporter's database interaction, for every fault assignment, is
one of: the unconfigured no-op; a failed connect; executes ending in a
raised insert; executes plus a failed commit; or executes plus exactly one
commit (after the whole loop) and a close.  On every fault path the
committed row set is empty (no partial commit) and the error is logged; on
the success path the committed rows are exactly the executed ones.  The
modelled function is total, so the caught exception is never re-raised. -/
theorem C6_transactional (dbUrl : Option String) (fl : Faults) (cityName : String)
    (indices : List (ℕ × ℕ)) (gt : GeoTransform) (diff : Mat) :
    ∃ rows : List Row,
      export_to_cloud dbUrl fl cityName indices gt diff
          = ([], { committed := [], warnedNoDb := true, errorLogged := false }) ∨
      export_to_cloud dbUrl fl cityName indices gt diff
          = ([DbOp.connect], { committed := [], warnedNoDb := false, errorLogged := true }) ∨
      export_to_cloud dbUrl fl cityName indices gt diff
          = (DbOp.connect :: rows.map DbOp.execute,
             { committed := [], warnedNoDb := false, errorLogged := true }) ∨
      export_to_cloud dbUrl fl cityName indices gt diff
          = (DbOp.connect :: rows.map DbOp.execute ++ [DbOp.commit],
             { committed := [], warnedNoDb := false, errorLogged := true }) ∨
      export_to_cloud dbUrl fl cityName indices gt diff
          = (DbOp.connect :: rows.map DbOp.execute ++ [DbOp.commit, DbOp.close],
             { committed := rows, warnedNoDb := false, errorLogged := false }) := by
  by_cases hconf : isConfigured dbUrl = false
  · exact ⟨[], Or.inl (by simp [export_to_cloud, hconf])⟩
  · by_cases hcf : fl.connectFails
    · exact ⟨[], Or.inr (Or.inl (by simp [export_to_cloud, hconf, hcf]))⟩
    · obtain ⟨rows, htr, hres⟩ := insertLoop_shape fl cityName gt diff indices 0
      refine ⟨rows, ?_⟩
      rcases hres with hok | ⟨e, herr⟩
      · by_cases hcm : fl.commitFails
        · exact Or.inr (Or.inr (Or.inr (Or.inl
            (by simp [export_to_cloud, hconf, hcf, hok, htr, hcm]))))
        · exact Or.inr (Or.inr (Or.inr (Or.inr
            (by simp [export_to_cloud, hconf, hcf, hok, htr, hcm]))))
      · exact Or.inr (Or.inr (Or.inl (by simp [export_to_cloud, hconf, hcf, herr, htr])))

/-- C8: with no configured destination connection string, the exporter
performs no database operation, logs only the warning, and returns without
raising. -/
theorem C8_no_db_noop (fl : Faults) (cityName : String) (indices : List (ℕ × ℕ))
    (gt : GeoTransform) (diff : Mat) :
    export_to_cloud none fl cityName indices gt diff
      = ([], { committed := [], warnedNoDb := true, errorLogged := false }) := rfl

/-! Helper lemmas about the shape of the rows a successful export writes. -/

theorem rowsOf_cell_id (city : String) (gt : GeoTransform) (diff : Mat)
    (indices : List (ℕ × ℕ)) :
    (rowsOf city gt diff indices).map Row.cell_id
      = (List.range (rowsOf city gt diff indices).length).map
          (fun i => city ++ "_" ++ toString i) := by
  unfold rowsOf
  rw [List.map_map, List.length_map, List.enum_length]
  have hfn : (Row.cell_id ∘ fun p : ℕ × ℕ × ℕ => mkRow city p.1 gt diff p.2.1 p.2.2)
      = (fun i => city ++ "_" ++ toString i) ∘ Prod.fst := rfl
  rw [hfn, ← List.map_map, List.enum_map_fst]

theorem rowsOf_mean_trend (city : String) (gt : GeoTransform) (diff : Mat)
    (indices : List (ℕ × ℕ)) :
    (rowsOf city gt diff indices).map Row.mean_radiance_2024
      = (rowsOf city gt diff indices).map Row.trend_slope := by
  unfold rowsOf
  rw [List.map_map, List.map_map]
  rfl

theorem rowsOf_risk (city : String) (gt : GeoTransform) (diff : Mat)
    (indices : List (ℕ × ℕ)) :
    (rowsOf city gt diff indices).map Row.risk_level
      = List.replicate (rowsOf city gt diff indices).length "Critical" := by
  unfold rowsOf
  rw [List.map_map, List.length_map]
  exact List.map_const' _ _

theorem rowsOf_srid (city : String) (gt : GeoTransform) (diff : Mat)
    (indices : List (ℕ × ℕ)) :
    (rowsOf city gt diff indices).map Row.srid
      = List.replicate (rowsOf city gt diff indices).length 4326 := by
  unfold rowsOf
  rw [List.map_map, List.length_map]
  exact List.map_const' _ _

/-- C2: the difference field is computed in a signed, real-valued
representation: an unsigned 16-bit sample is promoted to its exact real
value before subtraction, so the result equals the signed integer
difference; for older 10 and newer 2 it is exactly -8, not the unsigned
wraparound value 65528. -/
theorem C2_signed_difference :
    (∀ a b : Fin 65536, diff_u16 a b = (((b.val : ℤ) - (a.val : ℤ) : ℤ) : ℚ)) ∧
    diff_u16 10 2 = -8 ∧
    diffField [[u16_astype_float 10]] [[u16_astype_float 2]] = [[-8]] ∧
    wrap_sub_u16 10 2 = 65528 ∧
    ((-8 : ℚ) ≠ ((65528 : ℕ) : ℚ)) := by
  refine ⟨?_, ?_, ?_, rfl, by norm_num⟩
  · intro a b
    unfold diff_u16 u16_astype_float
    push_cast
    ring
  · unfold diff_u16 u16_astype_float
    rw [show ((10 : Fin 65536)).val = 10 from rfl, show ((2 : Fin 65536)).val = 2 from rfl]
    norm_num
  · unfold diffField u16_astype_float
    rw [show ((10 : Fin 65536)).val = 10 from rfl, show ((2 : Fin 65536)).val = 2 from rfl]
    norm_num

/-- C4: the exporter's pixel-to-geographic conversion is the affine formula
`lon = gt[0] + col*gt[1] + row*gt[2]`, `lat = gt[3] + col*gt[4] + row*gt[5]`;
at row 2, column 3 it yields exactly `(a + 3b + 2c, d + 3e + 2f)`. -/
theorem C4_affine_formula :
    (∀ (gt : GeoTransform) (row col : ℕ),
      pixelToLonLat gt row col
        = (gt.gt0 + (col : ℚ) * gt.gt1 + (row : ℚ) * gt.gt2,
           gt.gt3 + (col : ℚ) * gt.gt4 + (row : ℚ) * gt.gt5)) ∧
    (∀ a b c d e f : ℚ,
      pixelToLonLat { gt0 := a, gt1 := b, gt2 := c, gt3 := d, gt4 := e, gt5 := f } 2 3
        = (a + 3 * b + 2 * c, d + 3 * e + 2 * f)) := by
  refine ⟨fun gt row col => rfl, fun a b c d e f => ?_⟩
  unfold pixelToLonLat
  norm_num

/-- C5: with fewer than two input files the analyzer returns the all-None
sentinel without raising, and the region pass writes no hotspot rows and
performs no database operation; the modelled region pass is a total
function, so no exception escapes the region boundary. -/
theorem C5_insufficient_data (files : List RasterFile) (h : files.length < 2)
    (dbUrl : Option String) (fl : Faults) (city : String) :
    analyze_change files = none ∧
      processCity dbUrl fl city files
        = ([], { committed := [], warnedNoDb := false, errorLogged := false }) := by
  constructor
  · simp [analyze_change, h]
  · have h2 : ¬ 2 ≤ files.length := by omega
    simp [processCity, h2]

/-- Witness for C5 at the empty file list. -/
theorem C5_insufficient_data_witness :
    ([] : List RasterFile).length < 2 ∧
      (analyze_change [] = none ∧
        processCity none noFaults "Lahore" []
          = ([], { committed := [], warnedNoDb := false, errorLogged := false })) :=
  ⟨by decide, C5_insufficient_data [] (by decide) none noFaults "Lahore"⟩

/-- C7: every committed row carries the sequential per-region identifier
`city_i` at position `i`, the same scalar delta in both numeric columns,
the constant label Critical, and SRID 4326 on its geometry; and in the
end-to-end scenario (older `[[0,0],[0,20]]`, newer `[[0,0],[0,26]]`) the
analyzer finds the single hotspot (1,1) with delta 6 and exactly one row is
inserted, with value 6 in both numeric columns and label Critical. -/
theorem C7_row_contents :
    (∀ (dbUrl : Option String) (fl : Faults) (city : String)
        (indices : List (ℕ × ℕ)) (gt : GeoTransform) (diff : Mat),
      ((export_to_cloud dbUrl fl city indices gt diff).2.committed).map Row.cell_id
          = (List.range ((export_to_cloud dbUrl fl city indices gt diff).2.committed).length).map
              (fun i => city ++ "_" ++ toString i) ∧
      ((export_to_cloud dbUrl fl city indices gt diff).2.committed).map Row.mean_radiance_2024
          = ((export_to_cloud dbUrl fl city indices gt diff).2.committed).map Row.trend_slope ∧
      ((export_to_cloud dbUrl fl city indices gt diff).2.committed).map Row.risk_level
          = List.replicate ((export_to_cloud dbUrl fl city indices gt diff).2.committed).length
              "Critical" ∧
      ((export_to_cloud dbUrl fl city indices gt diff).2.committed).map Row.srid
          = List.replicate ((export_to_cloud dbUrl fl city indices gt diff).2.committed).length
              4326) ∧
    analyze_change [fOldX, fNewX] = some ([(1, 1)], gtX, [[(0:ℚ), 0], [0, 6]]) ∧
    ((export_to_cloud (some "postgresql://db") noFaults "X" [(1, 1)] gtX
        [[(0:ℚ), 0], [0, 6]]).2.committed).map
          (fun r => (r.cell_id, r.mean_radiance_2024, r.trend_slope, r.risk_level, r.srid))
      = [("X_0", 6, 6, "Critical", 4326)] := by
  refine ⟨?_, ?_, ?_⟩
  · intro dbUrl fl city indices gt diff
    rcases export_committed_cases dbUrl fl city indices gt diff with hnil | hrows
    · simp [hnil]
    · rw [hrows]
      exact ⟨rowsOf_cell_id city gt diff indices, rowsOf_mean_trend city gt diff indices,
        rowsOf_risk city gt diff indices, rowsOf_srid city gt diff indices⟩
  · have hdiff : diffField [[(0:ℚ),0],[0,20]] [[(0:ℚ),0],[0,26]] = [[0,0],[0,6]] := by
      norm_num [diffField]
    have hwhere : npWhereGt [[(0:ℚ),0],[0,6]] 5 = [(1,1)] := by
      norm_num [npWhereGt, npWhereFrom, rowHitsFrom]
    have hstep : analyze_change [fOldX, fNewX]
        = some (npWhereGt (diffField [[0,0],[0,20]] [[0,0],[0,26]]) 5, gtX,
                diffField [[0,0],[0,20]] [[0,0],[0,26]]) := rfl
    rw [hstep, hdiff, hwhere]
  · have hrows : (export_to_cloud (some "postgresql://db") noFaults "X" [(1,1)] gtX
        [[(0:ℚ),0],[0,6]]).2.committed = [mkRow "X" 0 gtX [[(0:ℚ),0],[0,6]] 1 1] := by
      rw [export_committed_noFaults _ _ _ _ _ (by decide)]
      rfl
    rw [hrows]
    rfl

/-- C9 counterexample: the sidecar's key set is not
`{product, year, created_at, source, notes}` — the timestamp key the code
writes is `created_at_utc`, and no key named `created_at` exists. -/
theorem C9_key_name_counterexample :
    sidecar_keys (scaffold_provenance 2023 "2026-10-12T00:00:00+00:00" none none)
        ≠ ["product", "year", "created_at", "source", "notes"] ∧
      "created_at" ∉ sidecar_keys
          (scaffold_provenance 2023 "2026-10-12T00:00:00+00:00" none none) ∧
      sidecar_keys (scaffold_provenance 2023 "2026-10-12T00:00:00+00:00" none none)
        = ["product", "year", "created_at_utc", "source", "notes"] :=
  ⟨by decide, by decide, rfl⟩

/-- C9 amended: the sidecar records exactly the five keys product, year,
created_at_utc, source, notes, with year equal to the command-line year,
the timestamp value equal to the run's UTC timestamp, and source and notes
equal to the supplied or default strings. -/
theorem C9_sidecar_contents (year : ℤ) (nowUtc : String)
    (srcArg notesArg : Option String) :
    sidecar_keys (scaffold_provenance year nowUtc srcArg notesArg)
        = ["product", "year", "created_at_utc", "source", "notes"] ∧
    (provenance_asdict (scaffold_provenance year nowUtc srcArg notesArg)).lookup "year"
        = some (JVal.jint year) ∧
    (provenance_asdict (scaffold_provenance year nowUtc srcArg notesArg)).lookup "created_at_utc"
        = some (JVal.jstr nowUtc) ∧
    (provenance_asdict (scaffold_provenance year nowUtc srcArg notesArg)).lookup "source"
        = some (JVal.jstr (srcArg.getD default_source)) ∧
    (provenance_asdict (scaffold_provenance year nowUtc srcArg notesArg)).lookup "notes"
        = some (JVal.jstr (notesArg.getD default_notes)) ∧
    (provenance_asdict (scaffold_provenance year nowUtc srcArg notesArg)).lookup "product"
        = some (JVal.jstr scaffold_product) :=
  ⟨rfl, rfl, rfl, rfl, rfl, rfl⟩

/-- C10: the exported cell polygon is a closed five-point ring starting and
ending at the computed coordinate, which is its north-west corner: every
vertex lies within `[lon, lon+0.01] x [lat-0.01, lat]`, both far corners
are attained, and the exporter's rows use exactly this polygon anchored at
the transformed pixel coordinate. -/
theorem C10_polygon_cell (lon lat : ℚ) :
    (polygonWKT lon lat).length = 5 ∧
    (polygonWKT lon lat).head? = some (lon, lat) ∧
    (polygonWKT lon lat).getLast? = some (lon, lat) ∧
    (∀ p ∈ polygonWKT lon lat,
        lon ≤ p.1 ∧ p.1 ≤ lon + 1/100 ∧ lat - 1/100 ≤ p.2 ∧ p.2 ≤ lat) ∧
    (lon + 1/100, lat - 1/100) ∈ polygonWKT lon lat ∧
    (∀ (city : String) (count : ℕ) (gt : GeoTransform) (diff : Mat) (y x : ℕ),
        (mkRow city count gt diff y x).geom
          = polygonWKT (pixelToLonLat gt y x).1 (pixelToLonLat gt y x).2) := by
  refine ⟨rfl, rfl, rfl, ?_, by simp [polygonWKT], fun city count gt diff y x => rfl⟩
  intro p hp
  simp only [polygonWKT, List.mem_cons, List.not_mem_nil, or_false] at hp
  rcases hp with rfl | rfl | rfl | rfl | rfl <;>
    refine ⟨by norm_num, by norm_num, by norm_num, by norm_num⟩

/-- Witness for C10's vertex-bound conjunct at the origin anchor. -/
theorem C10_polygon_cell_witness :
    ((0:ℚ), (0:ℚ)) ∈ polygonWKT 0 0 ∧
      ((0:ℚ) ≤ ((0:ℚ), (0:ℚ)).1 ∧ ((0:ℚ), (0:ℚ)).1 ≤ 0 + 1/100 ∧
        (0:ℚ) - 1/100 ≤ ((0:ℚ), (0:ℚ)).2 ∧ ((0:ℚ), (0:ℚ)).2 ≤ 0) :=
  ⟨by simp [polygonWKT], (C10_polygon_cell 0 0).2.2.2.1 ((0:ℚ), (0:ℚ))
    (by simp [polygonWKT])⟩

end Nocturna
